import Mathlib

/-
  Verification development for the OpenMediaTrust manifest integrity core.

  The definitions below are a shallow embedding of the Python sources:
    src/core/models.py          (Manifest, Assertion, Signature data model)
    src/core/signer.py          (Signer: canonicalization, signing, verification)
    src/verification/validator.py     (ManifestValidator)
    src/verification/policy_engine.py (PolicyEngine)

  Python values that can appear inside manifest dictionaries are modelled by
  the mutual inductive type PyVal below; Python exceptions are modelled with
  Except PyErr.  Machine byte strings are lists of Nat (each entry < 256 on
  the inputs of interest).  External cryptographic primitives (hashlib SHA-3,
  RSA-PSS via the cryptography library) are not part of this repository; they
  are modelled as opaque deterministic byte functions, as the specification
  itself prescribes for the post-quantum path.
-/

namespace OMT

/-- Python exception values, by class and message. -/
inductive PyErr : Type where
  | typeError (msg : String) : PyErr
  | valueError (msg : String) : PyErr
  | attributeError (msg : String) : PyErr
deriving DecidableEq, Repr

mutual
/-- A Python value as it can occur in a manifest dictionary: None, bool, int,
str, datetime (carrying its isoformat text), bytes, an opaque non-JSON object
(carrying its type name), a list, or a dict. -/
inductive PyVal : Type where
  | pynone : PyVal
  | pybool : Bool → PyVal
  | pyint : Int → PyVal
  | pystr : String → PyVal
  | pydt  : String → PyVal
  | pybytes : List Nat → PyVal
  | pyobj : String → PyVal
  | pylist : PyList → PyVal
  | pydict : PyDict → PyVal

/-- A Python list of values. -/
inductive PyList : Type where
  | nil : PyList
  | cons : PyVal → PyList → PyList

/-- A Python dict with string keys, in insertion order. -/
inductive PyDict : Type where
  | nil : PyDict
  | cons : String → PyVal → PyDict → PyDict
end

/-- Build a PyList from a Lean list. -/
def PyList.ofList : List PyVal → PyList
  | [] => .nil
  | x :: xs => .cons x (PyList.ofList xs)

/-- Build a PyDict from a Lean association list (insertion order kept). -/
def PyDict.ofList : List (String × PyVal) → PyDict
  | [] => .nil
  | (k, v) :: rest => .cons k v (PyDict.ofList rest)

/-- The entries of a PyDict as a Lean association list. -/
def PyDict.toList : PyDict → List (String × PyVal)
  | .nil => []
  | .cons k v d => (k, v) :: d.toList

/-- Remove a key from a dict, as Python dict.pop(key, None) leaves the dict. -/
def PyDict.erase : PyDict → String → PyDict
  | .nil, _ => .nil
  | .cons k v d, key => if k == key then d.erase key else .cons k v (d.erase key)

/-- Look a key up in a dict (Python d[k] / d.get(k)). -/
def PyDict.find : PyDict → String → Option PyVal
  | .nil, _ => none
  | .cons k v d, key => if k == key then some v else d.find key

/-- Python truthiness of a value (used by `if not x` in the sources). -/
def pyTruthy : PyVal → Bool
  | .pynone => false
  | .pybool b => b
  | .pyint n => n != 0
  | .pystr s => s != ""
  | .pydt _ => true
  | .pybytes bs => !bs.isEmpty
  | .pyobj _ => true
  | .pylist .nil => false
  | .pylist _ => true
  | .pydict .nil => false
  | .pydict _ => true

/-- Python len(x); raises TypeError on objects without a length. -/
def pyLen : PyVal → Except PyErr Nat
  | .pystr s => .ok s.length
  | .pybytes bs => .ok bs.length
  | .pylist xs => .ok (go xs)
  | .pydict d => .ok d.toList.length
  | _ => .error (.typeError "object has no len()")
where
  go : PyList → Nat
  | .nil => 0
  | .cons _ xs => go xs + 1

/-- Python x.get(key, default): only dicts have .get, anything else raises
AttributeError. -/
def pyGet (v : PyVal) (key : String) (dflt : PyVal) : Except PyErr PyVal :=
  match v with
  | .pydict d => .ok ((d.find key).getD dflt)
  | _ => .error (.attributeError "object has no attribute get")

/-- Python iteration over a value: lists yield elements, strings yield
one-character strings, dicts yield their keys; other values raise TypeError. -/
def pyIter : PyVal → Except PyErr (List PyVal)
  | .pylist xs => .ok (go xs)
  | .pystr s => .ok (s.data.map (fun c => .pystr (String.singleton c)))
  | .pydict d => .ok (d.toList.map (fun e => .pystr e.1))
  | _ => .error (.typeError "object is not iterable")
where
  go : PyList → List PyVal
  | .nil => []
  | .cons x xs => x :: go xs

mutual
/-- Python equality (==) between values.  Booleans compare equal to the
integers 0/1 as in Python; dict equality is modelled structurally (our
dictionaries of interest are compared against scalars only). -/
def pyEq : PyVal → PyVal → Bool
  | .pynone, .pynone => true
  | .pybool a, .pybool b => a == b
  | .pybool a, .pyint n => (if a then (1 : Int) else 0) == n
  | .pyint n, .pybool a => n == (if a then (1 : Int) else 0)
  | .pyint a, .pyint b => a == b
  | .pystr a, .pystr b => a == b
  | .pydt a, .pydt b => a == b
  | .pybytes a, .pybytes b => a == b
  | .pyobj a, .pyobj b => a == b
  | .pylist a, .pylist b => pyEqList a b
  | .pydict a, .pydict b => pyEqDict a b
  | _, _ => false

/-- Elementwise equality of Python lists. -/
def pyEqList : PyList → PyList → Bool
  | .nil, .nil => true
  | .cons a as, .cons b bs => pyEq a b && pyEqList as bs
  | _, _ => false

/-- Entrywise equality of Python dicts (structural model). -/
def pyEqDict : PyDict → PyDict → Bool
  | .nil, .nil => true
  | .cons k a as, .cons k2 b bs => k == k2 && pyEq a b && pyEqDict as bs
  | _, _ => false
end

/-- Lexicographic code-point comparison of character lists: the order Python
str < uses. -/
def charsLt : List Char → List Char → Bool
  | [], [] => false
  | [], _ :: _ => true
  | _ :: _, [] => false
  | a :: as, b :: bs =>
      if a.toNat < b.toNat then true
      else if b.toNat < a.toNat then false
      else charsLt as bs

/-- Python str <: lexicographic by Unicode code point. -/
def strLt (a b : String) : Bool := charsLt a.data b.data

/-- Python < between values: defined for numbers (with bool as 0/1) and for
pairs of strings; anything else raises TypeError, as in Python 3. -/
def pyLt (a b : PyVal) : Except PyErr Bool :=
  match a, b with
  | .pyint x, .pyint y => .ok (x < y)
  | .pyint x, .pybool y => .ok (x < (if y then 1 else 0))
  | .pybool x, .pyint y => .ok ((if x then (1 : Int) else 0) < y)
  | .pybool x, .pybool y => .ok ((if x then (1 : Int) else 0) < (if y then 1 else 0))
  | .pystr x, .pystr y => .ok (strLt x y)
  | _, _ => .error (.typeError "unsupported comparison between instances")

/-- Python `x is None`. -/
def pyIsNone : PyVal → Bool
  | .pynone => true
  | _ => false

/-- Python str() of a value, for violation messages (simplified rendering of
containers; message text is not load-bearing for any claim). -/
def pyStr : PyVal → String
  | .pynone => "None"
  | .pybool true => "True"
  | .pybool false => "False"
  | .pyint n => toString n
  | .pystr s => s
  | .pydt s => s
  | .pybytes _ => "bytes"
  | .pyobj t => t
  | .pylist _ => "list"
  | .pydict _ => "dict"

/-- Hexadecimal digit character, lowercase, as produced by json escapes. -/
def hexDigit (n : Nat) : Char :=
  if n < 10 then Char.ofNat (48 + n) else Char.ofNat (87 + n)

/-- Four lowercase hex digits, as in a json \uXXXX escape. -/
def hex4 (n : Nat) : String :=
  String.mk [hexDigit (n / 4096 % 16), hexDigit (n / 256 % 16),
             hexDigit (n / 16 % 16), hexDigit (n % 16)]

/-- Escape one character the way json.dumps (ensure_ascii=True) does: quote,
backslash and the short control escapes specially, every other character
outside the printable ASCII range as \uXXXX (basic-plane model). -/
def jsonEscapeChar (c : Char) : String :=
  if c = Char.ofNat 34 then "\\\""
  else if c = Char.ofNat 92 then "\\\\"
  else if c = Char.ofNat 10 then "\\n"
  else if c = Char.ofNat 13 then "\\r"
  else if c = Char.ofNat 9 then "\\t"
  else if c = Char.ofNat 8 then "\\b"
  else if c = Char.ofNat 12 then "\\f"
  else if c.toNat < 32 || c.toNat > 126 then "\\u" ++ hex4 c.toNat
  else String.singleton c

/-- A json string literal for s, with escaping. -/
def jsonQuote (s : String) : String :=
  "\"" ++ String.join (s.data.map jsonEscapeChar) ++ "\""

/-- UTF-8 encoding of one code point. -/
def utf8Char (n : Nat) : List Nat :=
  if n < 128 then [n]
  else if n < 2048 then [192 + n / 64, 128 + n % 64]
  else if n < 65536 then [224 + n / 4096, 128 + n / 64 % 64, 128 + n % 64]
  else [240 + n / 262144, 128 + n / 4096 % 64, 128 + n / 64 % 64, 128 + n % 64]

/-- UTF-8 encoding of a string, as Python str.encode("utf-8"). -/
def utf8Encode (s : String) : List Nat :=
  (s.data.map (fun c => utf8Char c.toNat)).flatten

/-- Byte values of an ASCII string, as a Python bytes literal. -/
def asciiBytes (s : String) : List Nat :=
  s.data.map Char.toNat

/-- Insert an entry into a key-sorted dict, keeping it sorted (ascending by
the Unicode code point order that Python sorted() uses on str keys). -/
def insertEntry (k : String) (v : PyVal) : PyDict → PyDict
  | .nil => .cons k v .nil
  | .cons k2 v2 d =>
      if strLt k2 k then .cons k2 v2 (insertEntry k v d)
      else .cons k v (.cons k2 v2 d)

/-- Sort the entries of a dict by key (insertion sort); this is the
sort_keys=True behaviour of json.dumps at one nesting level. -/
def sortEntries : PyDict → PyDict
  | .nil => .nil
  | .cons k v d => insertEntry k v (sortEntries d)

mutual
/-- Recursively sort every dict inside a value by key.  Serializing the
result in order is exactly json.dumps(..., sort_keys=True). -/
def sortVal : PyVal → PyVal
  | .pylist xs => .pylist (sortList xs)
  | .pydict d => .pydict (sortEntries (sortDictVals d))
  | v => v

/-- sortVal mapped over a list. -/
def sortList : PyList → PyList
  | .nil => .nil
  | .cons x xs => .cons (sortVal x) (sortList xs)

/-- sortVal mapped over the values of a dict (keys and order untouched). -/
def sortDictVals : PyDict → PyDict
  | .nil => .nil
  | .cons k v d => .cons k (sortVal v) (sortDictVals d)
end

mutual
/-- Emit json text for a value with separators (",", ":"), in entry order,
raising TypeError on values json.dumps cannot serialize (datetime, bytes,
arbitrary objects) exactly as Python json does without a default encoder. -/
def emitVal : PyVal → Except PyErr String
  | .pynone => .ok "null"
  | .pybool true => .ok "true"
  | .pybool false => .ok "false"
  | .pyint n => .ok (toString n)
  | .pystr s => .ok (jsonQuote s)
  | .pydt _ => .error (.typeError "Object of type datetime is not JSON serializable")
  | .pybytes _ => .error (.typeError "Object of type bytes is not JSON serializable")
  | .pyobj t => .error (.typeError ("Object of type " ++ t ++ " is not JSON serializable"))
  | .pylist xs => do
      let parts ← emitList xs
      .ok ("[" ++ String.intercalate "," parts ++ "]")
  | .pydict d => do
      let parts ← emitDict d
      .ok ("\x7b" ++ String.intercalate "," parts ++ "\x7d")

/-- Emitted fragments of a list's elements. -/
def emitList : PyList → Except PyErr (List String)
  | .nil => .ok []
  | .cons x xs => do
      let s ← emitVal x
      let rest ← emitList xs
      .ok (s :: rest)

/-- Emitted key:value fragments of a dict's entries, in entry order. -/
def emitDict : PyDict → Except PyErr (List String)
  | .nil => .ok []
  | .cons k v d => do
      let s ← emitVal v
      let rest ← emitDict d
      .ok ((jsonQuote k ++ ":" ++ s) :: rest)
end

/-- json.dumps(value, sort_keys=True, separators=(",", ":")): sort every
nesting level by key, then emit compact json text. -/
def jsonDumpsCanonical (v : PyVal) : Except PyErr String :=
  emitVal (sortVal v)

/-- SignatureAlgorithm from src/core/models.py. -/
inductive SigAlg : Type where
  | rsaPssSha256 | rsaPssSha384 | rsaPssSha512
  | ecdsaSha256 | ecdsaSha384 | ecdsaSha512
  | mlDsa44 | mlDsa65 | mlDsa87
  | slhDsaSha2128s | slhDsaSha2256s
  | hybridRsaMlDsa | hybridEcdsaMlDsa
deriving DecidableEq, Repr

/-- The string value of each algorithm tag. -/
def SigAlg.value : SigAlg → String
  | .rsaPssSha256 => "ps256"
  | .rsaPssSha384 => "ps384"
  | .rsaPssSha512 => "ps512"
  | .ecdsaSha256 => "es256"
  | .ecdsaSha384 => "es384"
  | .ecdsaSha512 => "es512"
  | .mlDsa44 => "ml-dsa-44"
  | .mlDsa65 => "ml-dsa-65"
  | .mlDsa87 => "ml-dsa-87"
  | .slhDsaSha2128s => "slh-dsa-sha2-128s"
  | .slhDsaSha2256s => "slh-dsa-sha2-256s"
  | .hybridRsaMlDsa => "hybrid-rsa-ml-dsa-65"
  | .hybridEcdsaMlDsa => "hybrid-ecdsa-ml-dsa-65"

/-- Signature model from src/core/models.py: alg, certificate_chain,
timestamp (datetime, carried as isoformat text), tsa, signature_value. -/
structure Signature : Type where
  alg : SigAlg
  certificate_chain : List String
  timestamp : String
  tsa : Option String := none
  signature_value : Option (List Nat) := none
deriving DecidableEq, Repr

/-- ClaimGeneratorInfo model from src/core/models.py. -/
structure ClaimGeneratorInfo : Type where
  name : String
  version : String
  icon : Option String := none
deriving Repr

/-- Assertion model from src/core/models.py: label, data (a dict or list,
held as a PyVal), instance_id (an assertion:uuid string generated at
construction, optional in the model type). -/
structure Assertion : Type where
  label : String
  data : PyVal
  instance_id : Option String

/-- Manifest model from src/core/models.py, fields in declaration order.
created_at is a datetime and is always present (pydantic default_factory);
it is carried as its isoformat text. -/
structure Manifest : Type where
  claim_generator : String
  format : String
  instance_id : String
  claim_generator_info : Option (List ClaimGeneratorInfo) := none
  title : Option String := none
  assertions : List Assertion := []
  signature : Option Signature := none
  created_at : String
  updated_at : Option String := none
  organization : Option String := none
  tenant_id : Option String := none

/-- Manifest.get_assertion: first assertion with the given label, or none. -/
def Manifest.get_assertion (m : Manifest) (label : String) : Option Assertion :=
  m.assertions.find? (fun a => a.label == label)

/-- An optional dict entry: present exactly when the value is present
(pydantic dict(exclude_none=True) omits None fields). -/
def optEntry (k : String) : Option PyVal → List (String × PyVal)
  | none => []
  | some v => [(k, v)]

/-- Dict form of a ClaimGeneratorInfo (exclude_none applies to the nested
model, so a missing icon is omitted). -/
def ClaimGeneratorInfo.toDictVal (c : ClaimGeneratorInfo) : PyVal :=
  .pydict (PyDict.ofList
    ([("name", .pystr c.name), ("version", .pystr c.version)]
      ++ optEntry "icon" (c.icon.map PyVal.pystr)))

/-- Dict form of an Assertion; the raw data payload is passed through
unchanged (exclude_none does not descend into plain dicts). -/
def Assertion.toDictVal (a : Assertion) : PyVal :=
  .pydict (PyDict.ofList
    ([("label", .pystr a.label), ("data", a.data)]
      ++ optEntry "instance_id" (a.instance_id.map PyVal.pystr)))

/-- Dict form of a Signature: the algorithm enum serializes as its string
value, timestamp stays a datetime, signature_value stays bytes; None fields
are omitted. -/
def Signature.toDictVal (s : Signature) : PyVal :=
  .pydict (PyDict.ofList
    ([("alg", .pystr s.alg.value),
      ("certificate_chain", .pylist (PyList.ofList (s.certificate_chain.map PyVal.pystr))),
      ("timestamp", .pydt s.timestamp)]
      ++ optEntry "tsa" (s.tsa.map PyVal.pystr)
      ++ optEntry "signature_value" (s.signature_value.map PyVal.pybytes)))

/-- The entries of Manifest.to_dict() = self.dict(exclude_none=True,
by_alias=True): fields in declaration order, None-valued optional fields
omitted, datetimes left as datetime objects, nested models converted to
dicts. -/
def Manifest.toDictList (m : Manifest) : List (String × PyVal) :=
  [("claim_generator", .pystr m.claim_generator),
   ("format", .pystr m.format),
   ("instance_id", .pystr m.instance_id)]
  ++ optEntry "claim_generator_info"
       (m.claim_generator_info.map (fun cs => .pylist (PyList.ofList (cs.map ClaimGeneratorInfo.toDictVal))))
  ++ optEntry "title" (m.title.map PyVal.pystr)
  ++ [("assertions", .pylist (PyList.ofList (m.assertions.map Assertion.toDictVal)))]
  ++ optEntry "signature" (m.signature.map Signature.toDictVal)
  ++ [("created_at", .pydt m.created_at)]
  ++ optEntry "updated_at" (m.updated_at.map PyVal.pydt)
  ++ optEntry "organization" (m.organization.map PyVal.pystr)
  ++ optEntry "tenant_id" (m.tenant_id.map PyVal.pystr)

/-- Manifest.to_dict() as a Python dict value. -/
def Manifest.to_dict (m : Manifest) : PyDict :=
  PyDict.ofList m.toDictList

/-- Signer._prepare_manifest_for_signing: convert the manifest to a dict,
pop the signature key, serialize with json.dumps(sort_keys=True,
separators=(",", ":")) and UTF-8 encode; serialization raises TypeError on
any datetime or bytes value left in the dict. -/
def prepareManifestForSigning (m : Manifest) : Except PyErr (List Nat) :=
  match jsonDumpsCanonical (.pydict (m.to_dict.erase "signature")) with
  | .ok s => .ok (utf8Encode s)
  | .error e => .error e

/-- Modelled from the spec: the external SHA3-256 primitive (hashlib), which
src/core/signer.py delegates to.  Per section 4.4 the core only requires a
deterministic function of the input bytes producing a fixed-size digest; this
stand-in produces 32 bytes.  No theorem depends on the digest values. -/
def sha3_256 (data : List Nat) : List Nat :=
  (List.range 32).map (fun i => data.foldl (fun a b => (a * 131 + b + 17) % 256) (i * 37 % 256))

/-- Modelled from the spec: the external SHA3-512 primitive (hashlib), a
deterministic function of the input bytes producing 64 bytes. -/
def sha3_512 (data : List Nat) : List Nat :=
  (List.range 64).map (fun i => data.foldl (fun a b => (a * 137 + b + 29) % 256) (i * 41 % 256))

/-- Modelled from the spec: the external RSA-PSS signing primitive from the
cryptography library (section 4.4 classical path), a function of the loaded
key and the canonical bytes producing signature bytes.  No theorem depends on
the signature values. -/
def rsaPssSignPrimitive (key : Nat) (data : List Nat) : List Nat :=
  (List.range 8).map (fun i => (data.foldl (fun a b => (a * 251 + b) % 256) (key + i)) % 256)

/-- The private key held by a Signer: none (no path given), an RSA private
key object (classical algorithms), or raw key bytes (anything else). -/
inductive LoadedKey : Type where
  | noKey : LoadedKey
  | rsaKey (k : Nat) : LoadedKey
  | rawKey (bs : List Nat) : LoadedKey
deriving DecidableEq, Repr

/-- Signer state from src/core/signer.py: configured algorithm, loaded
private key, loaded certificate chain, TSA URL. -/
structure SignerState : Type where
  algorithm : SigAlg
  key : LoadedKey := .noKey
  certChain : List String := []
  tsaUrl : Option String := none

/-- The Signer the validator builds: Signer(algorithm=alg) with no key or
certificate paths. -/
def signerOfAlg (a : SigAlg) : SignerState := { algorithm := a }

/-- Python b"demo_key". -/
def demoKey : List Nat := asciiBytes "demo_key"

/-- The bytes `self._private_key or b"demo_key"` used by the ML-DSA and
SLH-DSA placeholders: demo-key fallback for a missing or empty key, a
TypeError if an RSA key object were concatenated with bytes. -/
def keyBytesOrDemo : LoadedKey → Except PyErr (List Nat)
  | .noKey => .ok demoKey
  | .rawKey bs => .ok (if bs.isEmpty then demoKey else bs)
  | .rsaKey _ => .error (.typeError "can't concat RSAPrivateKey to bytes")

/-- Signer._sign_rsa_pss: requires an RSA private key object, else raises
ValueError; signs via the external primitive. -/
def signRsaPss (s : SignerState) (data : List Nat) : Except PyErr (List Nat) :=
  match s.key with
  | .rsaKey k => .ok (rsaPssSignPrimitive k data)
  | _ => .error (.valueError "Invalid private key for RSA-PSS")

/-- Signer._sign_ml_dsa (placeholder implementation in the source):
b"ML-DSA-SIGNATURE:" ++ sha3_256(data ++ (key or b"demo_key")). -/
def signMlDsa (s : SignerState) (data : List Nat) : Except PyErr (List Nat) := do
  let kb ← keyBytesOrDemo s.key
  .ok (asciiBytes "ML-DSA-SIGNATURE:" ++ sha3_256 (data ++ kb))

/-- Signer._sign_slh_dsa (placeholder implementation in the source):
b"SLH-DSA-SIGNATURE:" ++ sha3_512(data ++ (key or b"demo_key")). -/
def signSlhDsa (s : SignerState) (data : List Nat) : Except PyErr (List Nat) := do
  let kb ← keyBytesOrDemo s.key
  .ok (asciiBytes "SLH-DSA-SIGNATURE:" ++ sha3_512 (data ++ kb))

/-- len(classical_sig).to_bytes(4, "big"). -/
def natToBytesBE4 (n : Nat) : List Nat :=
  [n / 16777216 % 256, n / 65536 % 256, n / 256 % 256, n % 256]

/-- int.from_bytes(bs, "big"). -/
def natFromBytesBE (bs : List Nat) : Nat :=
  bs.foldl (fun a b => a * 256 + b) 0

/-- Signer._sign_hybrid: classical signature, post-quantum signature, and
the combined [classical_length:4][classical_sig][pqc_sig] encoding. -/
def signHybrid (s : SignerState) (data : List Nat) : Except PyErr (List Nat) := do
  let classicalSig ← signRsaPss s data
  let pqcSig ← signMlDsa s data
  .ok (natToBytesBE4 classicalSig.length ++ classicalSig ++ pqcSig)

/-- Signer._compute_signature: dispatch on the configured algorithm; the
ECDSA tags fall through to `raise ValueError(...)`. -/
def computeSignature (s : SignerState) (data : List Nat) : Except PyErr (List Nat) :=
  match s.algorithm with
  | .rsaPssSha256 | .rsaPssSha384 | .rsaPssSha512 => signRsaPss s data
  | .mlDsa44 | .mlDsa65 | .mlDsa87 => signMlDsa s data
  | .slhDsaSha2128s | .slhDsaSha2256s => signSlhDsa s data
  | .hybridRsaMlDsa | .hybridEcdsaMlDsa => signHybrid s data
  | a => .error (.valueError ("Unsupported algorithm: " ++ a.value))

/-- Signer.sign: canonicalize, compute the signature, build the Signature
object (timestamp = datetime.utcnow(), passed here as `now`) and store it on
the manifest, returning the mutated manifest. -/
def signManifest (s : SignerState) (now : String) (m : Manifest) : Except PyErr Manifest := do
  let data ← prepareManifestForSigning m
  let sv ← computeSignature s data
  let sigObj : Signature :=
    { alg := s.algorithm, certificate_chain := s.certChain,
      timestamp := now, tsa := s.tsaUrl, signature_value := some sv }
  .ok { m with signature := some sigObj }

/-- Signer._verify_rsa_pss: a placeholder in the source that returns True
for any data and signature. -/
def verifyRsaPss (_s : SignerState) (_data _sig : List Nat) : Bool :=
  true

/-- Signer._verify_ml_dsa: recompute the placeholder signature and compare. -/
def verifyMlDsa (s : SignerState) (data sig : List Nat) : Except PyErr Bool := do
  let kb ← keyBytesOrDemo s.key
  .ok (sig == asciiBytes "ML-DSA-SIGNATURE:" ++ sha3_256 (data ++ kb))

/-- Signer._verify_slh_dsa: recompute the placeholder signature and compare. -/
def verifySlhDsa (s : SignerState) (data sig : List Nat) : Except PyErr Bool := do
  let kb ← keyBytesOrDemo s.key
  .ok (sig == asciiBytes "SLH-DSA-SIGNATURE:" ++ sha3_512 (data ++ kb))

/-- Signer._verify_hybrid: split the signature on the 4-byte big-endian
classical length prefix, verify the classical half and the post-quantum
half, and AND the results. -/
def verifyHybrid (s : SignerState) (data sig : List Nat) : Except PyErr Bool := do
  let classicalLen := natFromBytesBE (sig.take 4)
  let classicalSig := (sig.drop 4).take classicalLen
  let pqcSig := sig.drop (4 + classicalLen)
  let classicalValid := verifyRsaPss s data classicalSig
  let pqcValid ← verifyMlDsa s data pqcSig
  .ok (classicalValid && pqcValid)

/-- Signer._verify_signature: dispatch on the configured algorithm; the
ECDSA tags fall through to `return False`. -/
def verifySignatureBytes (s : SignerState) (data sig : List Nat) : Except PyErr Bool :=
  match s.algorithm with
  | .rsaPssSha256 | .rsaPssSha384 | .rsaPssSha512 => .ok (verifyRsaPss s data sig)
  | .mlDsa44 | .mlDsa65 | .mlDsa87 => verifyMlDsa s data sig
  | .slhDsaSha2128s | .slhDsaSha2256s => verifySlhDsa s data sig
  | .hybridRsaMlDsa | .hybridEcdsaMlDsa => verifyHybrid s data sig
  | _ => .ok false

/-- Signer.verify: False when no signature is present; otherwise the
manifest is re-canonicalized OUTSIDE the try block (so a serialization error
propagates to the caller), and only the algorithm dispatch is guarded by
try/except returning False. -/
def verifyManifest (s : SignerState) (m : Manifest) : Except PyErr Bool :=
  match m.signature with
  | none => .ok false
  | some sg => do
      let data ← prepareManifestForSigning m
      .ok (match verifySignatureBytes s data (sg.signature_value.getD []) with
           | .ok b => b
           | .error _ => false)

/-- ValidationLevel from src/verification/validator.py. -/
inductive ValidationLevel : Type where
  | invalid | basic | standard | enterprise | highAssurance
deriving DecidableEq, Repr

/-- ValidationIssue: severity ("error" / "warning" / "info"), code, message. -/
structure ValidationIssue : Type where
  severity : String
  code : String
  message : String
  location : Option String := none
deriving DecidableEq, Repr

/-- AssertionValidation: per-assertion verification record. -/
structure AssertionValidation : Type where
  label : String
  verified : Bool
  message : String
  details : Option PyVal := none

/-- ValidationResult from src/verification/validator.py. -/
structure ValidationResult : Type where
  valid : Bool
  trust_level : ValidationLevel
  signature_valid : Bool
  certificate_trusted : Bool
  chain_complete : Bool
  assertions_verified : List AssertionValidation
  issues : List ValidationIssue
  warnings : List ValidationIssue
  verified_at : String
  manifest_id : String
  organizational_compliance : Option (List (String × PyVal)) := none

/-- str(e) of a modelled Python exception: its message. -/
def pyErrStr : PyErr → String
  | .typeError m => m
  | .valueError m => m
  | .attributeError m => m

/-- ManifestValidator._validate_structure: required top-level fields, plus a
warning when instance_id lacks a recognized namespace prefix.  Returns
(stage-valid, issues appended, warnings appended). -/
def validateStructure (m : Manifest) : Bool × List ValidationIssue × List ValidationIssue :=
  let i1 := if m.claim_generator == "" then
    [⟨"error", "MISSING_CLAIM_GENERATOR", "Manifest missing claim_generator", none⟩] else []
  let i2 := if m.format == "" then
    [⟨"error", "MISSING_FORMAT", "Manifest missing format", none⟩] else []
  let i3 := if m.instance_id == "" then
    [⟨"error", "MISSING_INSTANCE_ID", "Manifest missing instance_id", none⟩] else []
  let w1 := if m.instance_id != "" &&
      !(m.instance_id.startsWith "xmp:iid:" || m.instance_id.startsWith "uuid:") then
    [⟨"warning", "INVALID_INSTANCE_ID_FORMAT",
      "instance_id should start with 'xmp:iid:' or 'uuid:'", none⟩] else []
  (m.claim_generator != "" && m.format != "" && m.instance_id != "",
   i1 ++ i2 ++ i3, w1)

/-- ManifestValidator._validate_actions_assertion; the f-string message
takes len(actions), which raises TypeError when the actions value is a
truthy object without a length. -/
def validateActionsAssertion (a : Assertion) : Except PyErr AssertionValidation :=
  match a.data with
  | .pydict d =>
      let actions := (d.find "actions").getD (.pylist .nil)
      if !pyTruthy actions then
        .ok ⟨"c2pa.actions", false, "Actions assertion has no actions", none⟩
      else do
        let n ← pyLen actions
        .ok ⟨"c2pa.actions", true,
             "Actions assertion valid (" ++ toString n ++ " actions)",
             some (.pydict (.cons "action_count" (.pyint n) .nil))⟩
  | _ => .ok ⟨"c2pa.actions", false, "Invalid actions assertion format", none⟩

/-- ManifestValidator._validate_hash_assertion. -/
def validateHashAssertion (a : Assertion) : AssertionValidation :=
  match a.data with
  | .pydict d =>
      if !(d.find "name").isSome || !(d.find "alg").isSome then
        ⟨"c2pa.hash.data", false, "Hash assertion missing required fields", none⟩
      else
        ⟨"c2pa.hash.data", true, "Hash assertion valid", none⟩
  | _ => ⟨"c2pa.hash.data", false, "Invalid hash assertion format", none⟩

/-- The per-assertion loop of _validate_assertions: walk the assertion list
in order, collecting validation records and the has-actions / has-hash
flags. -/
def assertionsLoop : List Assertion →
    Except PyErr (List AssertionValidation × Bool × Bool)
  | [] => .ok ([], false, false)
  | a :: rest => do
      let (vs, hasActions, hasHash) ← assertionsLoop rest
      if a.label == "c2pa.actions" then do
        let v ← validateActionsAssertion a
        .ok (v :: vs, true, hasHash)
      else if a.label == "c2pa.hash.data" then
        .ok (validateHashAssertion a :: vs, hasActions, true)
      else
        .ok (⟨a.label, true, "Assertion present", none⟩ :: vs, hasActions, hasHash)

/-- ManifestValidator._validate_assertions: an empty assertion list yields
only a NO_ASSERTIONS warning and passes; otherwise a missing actions
assertion is a warning and a missing content-hash assertion is an error that
fails the stage.  Returns (stage-valid, assertion validations, issues
appended, warnings appended). -/
def validateAssertions (m : Manifest) :
    Except PyErr (Bool × List AssertionValidation × List ValidationIssue × List ValidationIssue) :=
  if m.assertions.isEmpty then
    .ok (true, [], [],
         [⟨"warning", "NO_ASSERTIONS", "Manifest has no assertions", none⟩])
  else do
    let (vs, hasActions, hasHash) ← assertionsLoop m.assertions
    let w1 := if !hasActions then
      [⟨"warning", "MISSING_ACTIONS_ASSERTION",
        "Recommended c2pa.actions assertion not found", none⟩] else []
    if !hasHash then
      .ok (false, vs,
           [⟨"error", "MISSING_HASH_ASSERTION",
             "Required c2pa.hash.data assertion not found", none⟩], w1)
    else
      .ok (true, vs, [], w1)

/-- ManifestValidator._validate_signature: build a Signer for the manifest's
algorithm (no key material) and verify; a False result records an
INVALID_SIGNATURE error, an exception is caught and recorded as a
SIGNATURE_VERIFICATION_ERROR error. -/
def validateSignatureStage (m : Manifest) : Bool × List ValidationIssue :=
  match m.signature with
  | none => (false, [])
  | some sg =>
      match verifyManifest (signerOfAlg sg.alg) m with
      | .ok true => (true, [])
      | .ok false =>
          (false, [⟨"error", "INVALID_SIGNATURE",
                    "Manifest signature verification failed", none⟩])
      | .error e =>
          (false, [⟨"error", "SIGNATURE_VERIFICATION_ERROR",
                    "Error verifying signature: " ++ pyErrStr e, none⟩])

/-- ManifestValidator._validate_certificate_trust: warnings (never errors)
when the chain is empty, no trusted set is configured, or no trusted
certificate appears in the chain. -/
def validateCertificateTrust (trusted : List String) (m : Manifest) :
    Bool × List ValidationIssue :=
  match m.signature with
  | none => (false, [⟨"warning", "NO_CERTIFICATE_CHAIN",
                      "No certificate chain provided", none⟩])
  | some sg =>
      if sg.certificate_chain.isEmpty then
        (false, [⟨"warning", "NO_CERTIFICATE_CHAIN",
                  "No certificate chain provided", none⟩])
      else if trusted.isEmpty then
        (false, [⟨"warning", "NO_TRUSTED_CERTS",
                  "No trusted certificates configured", none⟩])
      else if trusted.any (fun t => sg.certificate_chain.contains t) then
        (true, [])
      else
        (false, [⟨"warning", "UNTRUSTED_CERTIFICATE",
                  "Certificate not in trusted list", none⟩])

/-- ManifestValidator._validate_chain_of_custody: presence of an actions
assertion. -/
def validateChainOfCustody (m : Manifest) : Bool :=
  (m.get_assertion "c2pa.actions").isSome

/-- ManifestValidator._determine_trust_level, verbatim from the source:
invalid when the signature is not valid or any (error) issue was recorded,
else enterprise / standard / basic by certificate trust and custody. -/
def determineTrustLevel (signatureValid certificateTrusted chainComplete : Bool)
    (issueCount : Nat) : ValidationLevel :=
  if !signatureValid || issueCount > 0 then .invalid
  else if certificateTrusted && chainComplete then .enterprise
  else if certificateTrusted then .standard
  else if signatureValid then .basic
  else .invalid

/-- The short-circuiting any(step.get("status") == "approved" for step in
chain) of _check_organizational_compliance. -/
def anyStepApproved : List PyVal → Except PyErr Bool
  | [] => .ok false
  | step :: rest => do
      let st ← pyGet step "status" .pynone
      if pyEq st (.pystr "approved") then .ok true else anyStepApproved rest

/-- ManifestValidator._check_organizational_compliance: read the workflow
assertion's compliance_check, approval_chain and organizational_context;
attribute and iteration errors on malformed payloads propagate. -/
def checkOrganizationalCompliance (m : Manifest) :
    Except PyErr (List (String × PyVal)) :=
  match m.get_assertion "org.enterprise.workflow" with
  | none => .ok []
  | some w =>
      match w.data with
      | .pydict d => do
          let cc := (d.find "compliance_check").getD (.pydict .nil)
          let pdpa ← pyGet cc "pdpa_approved" (.pybool false)
          let tm ← pyGet cc "trademark_cleared" (.pybool false)
          let lr ← pyGet cc "legal_review" .pynone
          let chain := (d.find "approval_chain").getD (.pylist .nil)
          let steps ← pyIter chain
          let approved ← anyStepApproved steps
          let orgCtx := (d.find "organizational_context").getD (.pydict .nil)
          let dept ← pyGet orgCtx "department" .pynone
          .ok [("pdpa_compliant", pdpa),
               ("trademark_cleared", tm),
               ("legal_review_passed", .pybool (pyEq lr (.pystr "passed"))),
               ("workflow_approved", .pybool approved),
               ("department_authorized", .pybool (pyTruthy dept))]
      | _ => .ok []

/-- The signature branch of validate: when a signature is present run the
signature and certificate-trust stages, otherwise record the NO_SIGNATURE
error.  Returns (signature_valid, certificate_trusted, issues appended,
warnings appended). -/
def signatureStagePair (trusted : List String) (m : Manifest) :
    Bool × Bool × List ValidationIssue × List ValidationIssue :=
  match m.signature with
  | some _ =>
      let (sv, i1) := validateSignatureStage m
      let (ct, w1) := validateCertificateTrust trusted m
      (sv, ct, i1, w1)
  | none =>
      (false, false,
       [⟨"error", "NO_SIGNATURE", "Manifest is not signed", none⟩], [])

/-- ManifestValidator.validate: run the structural, assertion, signature,
certificate-trust and chain-of-custody stages, derive the trust level from
the recorded (error) issues, and compute overall validity (strict mode also
requires certificate trust and custody). -/
def validateManifest (trusted : List String) (m : Manifest) (strict : Bool)
    (now : String) : Except PyErr ValidationResult := do
  let (structureValid, sIss, sWarn) := validateStructure m
  let (assertionsValid, avs, aIss, aWarn) ← validateAssertions m
  let (signatureValid, certificateTrusted, gIss, gWarn) := signatureStagePair trusted m
  let chainComplete := validateChainOfCustody m
  let issues := sIss ++ aIss ++ gIss
  let warnings := sWarn ++ aWarn ++ gWarn
  let trustLevel := determineTrustLevel signatureValid certificateTrusted
    chainComplete issues.length
  let orgCompliance ← checkOrganizationalCompliance m
  let valid0 := structureValid && assertionsValid && signatureValid
  let valid := if strict then valid0 && certificateTrusted && chainComplete else valid0
  .ok { valid := valid, trust_level := trustLevel,
        signature_valid := signatureValid,
        certificate_trusted := certificateTrusted,
        chain_complete := chainComplete,
        assertions_verified := avs,
        issues := issues, warnings := warnings,
        verified_at := now, manifest_id := m.instance_id,
        organizational_compliance := some orgCompliance }

/-- PolicyRuleType from src/verification/policy_engine.py. -/
inductive PolicyRuleType : Type where
  | requiredAssertion | forbiddenAssertion | requiredField
  | valueConstraint | classificationConstraint | customFunction
deriving DecidableEq, Repr

/-- PolicyRuleSeverity from src/verification/policy_engine.py. -/
inductive PolicyRuleSeverity : Type where
  | error | warning | info
deriving DecidableEq, Repr

/-- ClassificationLevel from src/core/models.py. -/
inductive ClassificationLevel : Type where
  | publicLevel | internal | confidential | secret | topSecret
deriving DecidableEq, Repr

/-- The string value of each classification level. -/
def ClassificationLevel.value : ClassificationLevel → String
  | .publicLevel => "public"
  | .internal => "internal"
  | .confidential => "confidential"
  | .secret => "secret"
  | .topSecret => "top_secret"

/-- PolicyRule: a rule definition with its type-specific parameters. -/
structure PolicyRule : Type where
  name : String
  description : String
  rule_type : PolicyRuleType
  severity : PolicyRuleSeverity
  enabled : Bool := true
  assertion_label : Option String := none
  field_path : Option String := none
  required_value : Option PyVal := none
  allowed_values : Option (List PyVal) := none
  min_value : Option PyVal := none
  max_value : Option PyVal := none
  classification_levels : Option (List ClassificationLevel) := none
  custom_function : Option String := none

/-- PolicyViolation record. -/
structure PolicyViolation : Type where
  rule_name : String
  severity : PolicyRuleSeverity
  message : String
  location : Option String := none
  expected : Option String := none
  actual : Option String := none
deriving DecidableEq, Repr

/-- PolicyEvaluationResult record. -/
structure PolicyEvaluationResult : Type where
  manifest_id : String
  policy_name : String
  passed : Bool
  violations : List PolicyViolation
  evaluated_at : String

/-- OrganizationalPolicy: a named, versioned rule set. -/
structure OrganizationalPolicy : Type where
  name : String
  description : String
  version : String
  rules : List PolicyRule
  department : Option String := none
  classification_level : Option ClassificationLevel := none

/-- PolicyEngine state: registered policies and registered custom predicate
functions (a predicate may raise, modelled with Except). -/
structure PolicyEngine : Type where
  policies : List (String × OrganizationalPolicy)
  custom_functions : List (String × (Manifest → Except PyErr Bool))

/-- PolicyEngine.add_policy: register (or replace) a policy under its name. -/
def PolicyEngine.addPolicy (e : PolicyEngine) (p : OrganizationalPolicy) : PolicyEngine :=
  { e with policies := (p.name, p) :: e.policies }

/-- PolicyEngine.register_custom_function. -/
def PolicyEngine.registerCustomFunction (e : PolicyEngine) (name : String)
    (f : Manifest → Except PyErr Bool) : PolicyEngine :=
  { e with custom_functions := (name, f) :: e.custom_functions }

/-- Python repr() of a value, as used when a list is interpolated into an
f-string (strings are quoted); message text only. -/
def pyReprVal : PyVal → String
  | .pystr s => "'" ++ s ++ "'"
  | v => pyStr v

/-- Python str() of a list of values: bracketed, comma separated reprs. -/
def pyReprList (vs : List PyVal) : String :=
  "[" ++ String.intercalate ", " (vs.map pyReprVal) ++ "]"

/-- getattr(manifest, field_path, None): resolve a top-level Claim field;
non-scalar fields (assertion list, signature object, generator-info list)
are opaque Python objects, unknown names give the None default. -/
def manifestGetAttr (m : Manifest) (field : String) : PyVal :=
  if field == "claim_generator" then .pystr m.claim_generator
  else if field == "format" then .pystr m.format
  else if field == "instance_id" then .pystr m.instance_id
  else if field == "claim_generator_info" then
    match m.claim_generator_info with
    | none => .pynone
    | some _ => .pyobj "ClaimGeneratorInfoList"
  else if field == "title" then (m.title.map PyVal.pystr).getD .pynone
  else if field == "assertions" then .pyobj "AssertionList"
  else if field == "signature" then
    match m.signature with
    | none => .pynone
    | some _ => .pyobj "Signature"
  else if field == "created_at" then .pydt m.created_at
  else if field == "updated_at" then (m.updated_at.map PyVal.pydt).getD .pynone
  else if field == "organization" then (m.organization.map PyVal.pystr).getD .pynone
  else if field == "tenant_id" then (m.tenant_id.map PyVal.pystr).getD .pynone
  else .pynone

/-- A truthy optional string: Python `if not s` is taken on these rule
parameters, so None and "" both disable the rule. -/
def truthyOptStr : Option String → Option String
  | none => none
  | some s => if s == "" then none else some s

/-- PolicyEngine._check_required_assertion. -/
def checkRequiredAssertion (m : Manifest) (rule : PolicyRule) : List PolicyViolation :=
  match truthyOptStr rule.assertion_label with
  | none => []
  | some label =>
      match m.get_assertion label with
      | some _ => []
      | none =>
          [{ rule_name := rule.name, severity := rule.severity,
             message := "Required assertion '" ++ label ++ "' not found",
             location := some ("assertions[" ++ label ++ "]"),
             expected := some label, actual := some "missing" }]

/-- PolicyEngine._check_forbidden_assertion. -/
def checkForbiddenAssertion (m : Manifest) (rule : PolicyRule) : List PolicyViolation :=
  match truthyOptStr rule.assertion_label with
  | none => []
  | some label =>
      match m.get_assertion label with
      | none => []
      | some _ =>
          [{ rule_name := rule.name, severity := rule.severity,
             message := "Forbidden assertion '" ++ label ++ "' found",
             location := some ("assertions[" ++ label ++ "]"),
             expected := some "not present", actual := some "present" }]

/-- PolicyEngine._check_required_field: a field that resolves to None is the
only violation case. -/
def checkRequiredField (m : Manifest) (rule : PolicyRule) : List PolicyViolation :=
  match truthyOptStr rule.field_path with
  | none => []
  | some fp =>
      if pyIsNone (manifestGetAttr m fp) then
        [{ rule_name := rule.name, severity := rule.severity,
           message := "Required field '" ++ fp ++ "' not found",
           location := some fp, expected := some "value", actual := some "null" }]
      else []

/-- PolicyEngine._check_value_constraint: membership in the allowed set and
numeric bounds; absent fields are silently skipped; an unsupported Python
comparison raises. -/
def checkValueConstraint (m : Manifest) (rule : PolicyRule) :
    Except PyErr (List PolicyViolation) :=
  match truthyOptStr rule.field_path with
  | none => .ok []
  | some fp =>
      let value := manifestGetAttr m fp
      if pyIsNone value then .ok []
      else do
        let v1 : List PolicyViolation :=
          match rule.allowed_values with
          | some allowed =>
              if !allowed.isEmpty && !(allowed.any (fun a => pyEq value a)) then
                [{ rule_name := rule.name, severity := rule.severity,
                   message := "Field '" ++ fp ++ "' has invalid value",
                   location := some fp,
                   expected := some ("one of " ++ pyReprList allowed),
                   actual := some (pyStr value) }]
              else []
          | none => []
        let v2 : List PolicyViolation ←
          match rule.min_value with
          | some mv => do
              let lt ← pyLt value mv
              if lt then
                pure [{ rule_name := rule.name, severity := rule.severity,
                        message := "Field '" ++ fp ++ "' below minimum",
                        location := some fp,
                        expected := some (">= " ++ pyStr mv),
                        actual := some (pyStr value) }]
              else pure ([] : List PolicyViolation)
          | none => pure []
        let v3 : List PolicyViolation ←
          match rule.max_value with
          | some mv => do
              let gt ← pyLt mv value
              if gt then
                pure [{ rule_name := rule.name, severity := rule.severity,
                        message := "Field '" ++ fp ++ "' above maximum",
                        location := some fp,
                        expected := some ("<= " ++ pyStr mv),
                        actual := some (pyStr value) }]
              else pure ([] : List PolicyViolation)
          | none => pure []
        .ok (v1 ++ v2 ++ v3)

/-- PolicyEngine._check_classification_constraint: the classification is
read from the workflow assertion payload, and a missing workflow assertion
or classification value is itself a violation at the rule's severity. -/
def checkClassificationConstraint (m : Manifest) (rule : PolicyRule) :
    List PolicyViolation :=
  match m.get_assertion "org.enterprise.workflow" with
  | none =>
      [{ rule_name := rule.name, severity := rule.severity,
         message := "No workflow assertion to check classification",
         location := some "assertions[org.enterprise.workflow]" }]
  | some w =>
      match w.data with
      | .pydict d =>
          let classification := (d.find "classification").getD .pynone
          if !pyTruthy classification then
            [{ rule_name := rule.name, severity := rule.severity,
               message := "No classification specified",
               location := some "workflow.classification" }]
          else
            match rule.classification_levels with
            | some levels =>
                if !levels.isEmpty then
                  let allowed := levels.map ClassificationLevel.value
                  if !(allowed.any (fun s => pyEq classification (.pystr s))) then
                    [{ rule_name := rule.name, severity := rule.severity,
                       message := "Invalid classification level",
                       location := some "workflow.classification",
                       expected := some ("one of " ++ pyReprList (allowed.map PyVal.pystr)),
                       actual := some (pyStr classification) }]
                  else []
                else []
            | none => []
      | _ =>
          [{ rule_name := rule.name, severity := rule.severity,
             message := "No workflow assertion to check classification",
             location := some "assertions[org.enterprise.workflow]" }]

/-- PolicyEngine._check_custom_function: an unregistered function name or an
exception raised by the predicate yields one ERROR-severity violation (the
declared rule severity is used only for an ordinary False result); the
try/except makes this check total, so no exception escapes it. -/
def checkCustomFunction (e : PolicyEngine) (m : Manifest) (rule : PolicyRule) :
    List PolicyViolation :=
  match truthyOptStr rule.custom_function with
  | none => []
  | some fname =>
      match e.custom_functions.lookup fname with
      | none =>
          [{ rule_name := rule.name, severity := PolicyRuleSeverity.error,
             message := "Custom function '" ++ fname ++ "' not found" }]
      | some f =>
          match f m with
          | .ok true => []
          | .ok false =>
              [{ rule_name := rule.name, severity := rule.severity,
                 message := "Custom validation '" ++ fname ++ "' failed" }]
          | .error err =>
              [{ rule_name := rule.name, severity := PolicyRuleSeverity.error,
                 message := "Custom validation error: " ++ pyErrStr err }]

/-- PolicyEngine._evaluate_rule: dispatch on the rule type. -/
def evaluateRule (e : PolicyEngine) (m : Manifest) (rule : PolicyRule) :
    Except PyErr (List PolicyViolation) :=
  match rule.rule_type with
  | .requiredAssertion => .ok (checkRequiredAssertion m rule)
  | .forbiddenAssertion => .ok (checkForbiddenAssertion m rule)
  | .requiredField => .ok (checkRequiredField m rule)
  | .valueConstraint => checkValueConstraint m rule
  | .classificationConstraint => .ok (checkClassificationConstraint m rule)
  | .customFunction => .ok (checkCustomFunction e m rule)

/-- The rule loop of PolicyEngine.evaluate: disabled rules are skipped and
violations accumulate in rule order. -/
def rulesLoop (e : PolicyEngine) (m : Manifest) :
    List PolicyRule → Except PyErr (List PolicyViolation)
  | [] => .ok []
  | r :: rest =>
      if !r.enabled then rulesLoop e m rest
      else do
        let vs ← evaluateRule e m r
        let more ← rulesLoop e m rest
        .ok (vs ++ more)

/-- PolicyEngine.evaluate: look the policy up (ValueError when absent),
evaluate its enabled rules, and pass exactly when no accumulated violation
has ERROR severity. -/
def evaluatePolicy (e : PolicyEngine) (m : Manifest) (policyName : String)
    (now : String) : Except PyErr PolicyEvaluationResult :=
  match e.policies.lookup policyName with
  | none => .error (.valueError ("Policy not found: " ++ policyName))
  | some policy => do
      let violations ← rulesLoop e m policy.rules
      .ok { manifest_id := m.instance_id, policy_name := policyName,
            passed := !(violations.any (fun v => v.severity == PolicyRuleSeverity.error)),
            violations := violations, evaluated_at := now }

/-- The built-in marketing_content policy of _initialize_default_policies. -/
def marketingPolicy : OrganizationalPolicy :=
  { name := "marketing_content",
    description := "Policy for marketing and public relations content",
    version := "1.0", department := some "Marketing",
    rules :=
      [{ name := "require_creative_work",
         description := "Must have CreativeWork assertion with author",
         rule_type := .requiredAssertion, severity := .error,
         assertion_label := some "stds.schema-org.CreativeWork" },
       { name := "require_workflow",
         description := "Must have enterprise workflow",
         rule_type := .requiredAssertion, severity := .error,
         assertion_label := some "org.enterprise.workflow" },
       { name := "public_classification",
         description := "Marketing content must be classified as public",
         rule_type := .classificationConstraint, severity := .error,
         classification_levels := some [.publicLevel] }] }

/-- The built-in legal_documents policy of _initialize_default_policies. -/
def legalPolicy : OrganizationalPolicy :=
  { name := "legal_documents",
    description := "Policy for legal and compliance documents",
    version := "1.0", department := some "Legal",
    rules :=
      [{ name := "require_hash",
         description := "Must have hash assertion for integrity",
         rule_type := .requiredAssertion, severity := .error,
         assertion_label := some "c2pa.hash.data" },
       { name := "require_actions",
         description := "Must have complete action history",
         rule_type := .requiredAssertion, severity := .error,
         assertion_label := some "c2pa.actions" },
       { name := "confidential_or_higher",
         description := "Legal docs must be confidential or higher",
         rule_type := .classificationConstraint, severity := .error,
         classification_levels := some [.confidential, .secret, .topSecret] }] }

/-- A freshly constructed PolicyEngine with the two default policies. -/
def defaultPolicyEngine : PolicyEngine :=
  { policies := [("marketing_content", marketingPolicy),
                 ("legal_documents", legalPolicy)],
    custom_functions := [] }

/-- Whether a value is a datetime object. -/
def isDt : PyVal → Bool
  | .pydt _ => true
  | _ => false

/-- Whether some top-level entry of a dict holds a datetime value. -/
def hasDtEntry : PyDict → Bool
  | .nil => false
  | .cons _ v d => isDt v || hasDtEntry d

theorem isDt_sortVal (v : PyVal) : isDt (sortVal v) = isDt v := by
  cases v <;> rfl

theorem hasDtEntry_insertEntry (k : String) (v : PyVal) :
    ∀ d : PyDict, hasDtEntry (insertEntry k v d) = (isDt v || hasDtEntry d)
  | .nil => rfl
  | .cons k2 v2 d => by
      simp only [insertEntry]
      split
      · simp [hasDtEntry, hasDtEntry_insertEntry k v d, Bool.or_left_comm]
      · simp [hasDtEntry]

theorem hasDtEntry_sortEntries :
    ∀ d : PyDict, hasDtEntry (sortEntries d) = hasDtEntry d
  | .nil => rfl
  | .cons k v d => by
      simp [sortEntries, hasDtEntry_insertEntry, hasDtEntry_sortEntries d, hasDtEntry]

theorem hasDtEntry_sortDictVals :
    ∀ d : PyDict, hasDtEntry (sortDictVals d) = hasDtEntry d
  | .nil => rfl
  | .cons k v d => by
      simp [sortDictVals, hasDtEntry, isDt_sortVal, hasDtEntry_sortDictVals d]

theorem emitVal_isDt (v : PyVal) (h : isDt v = true) :
    emitVal v = .error (.typeError "Object of type datetime is not JSON serializable") := by
  cases v <;> simp [isDt] at h
  rfl

theorem emitDict_not_ok :
    ∀ d : PyDict, hasDtEntry d = true → ∀ parts, emitDict d ≠ .ok parts
  | .nil, h => by simp [hasDtEntry] at h
  | .cons k v d, h => by
      intro parts hok
      simp only [hasDtEntry, Bool.or_eq_true] at h
      rcases h with hv | hd
      · rw [emitDict.eq_def] at hok
        simp [emitVal_isDt v hv, bind, Except.bind] at hok
      · rw [emitDict.eq_def] at hok
        cases hev : emitVal v with
        | error e => simp [hev, bind, Except.bind] at hok
        | ok s =>
            cases hed : emitDict d with
            | error e => simp [hev, hed, bind, Except.bind] at hok
            | ok rest => exact emitDict_not_ok d hd rest hed

theorem emitVal_pydict_not_ok (d : PyDict) (h : hasDtEntry d = true) :
    ∀ s, emitVal (.pydict d) ≠ .ok s := by
  intro s hok
  rw [emitVal.eq_def] at hok
  cases hed : emitDict d with
  | error e => simp [hed, bind, Except.bind] at hok
  | ok parts => exact emitDict_not_ok d h parts hed

/-- Entry of a dict at the association-list level whose value is a datetime. -/
def entryIsDt (e : String × PyVal) : Bool := isDt e.2

theorem hasDtEntry_ofList : ∀ l : List (String × PyVal),
    hasDtEntry (PyDict.ofList l) = l.any entryIsDt
  | [] => rfl
  | (k, v) :: rest => by
      simp [PyDict.ofList, hasDtEntry, hasDtEntry_ofList rest, entryIsDt]

theorem erase_ofList (key : String) : ∀ l : List (String × PyVal),
    (PyDict.ofList l).erase key = PyDict.ofList (l.filter (fun e => !(e.1 == key)))
  | [] => rfl
  | (k, v) :: rest => by
      simp only [PyDict.ofList, PyDict.erase, List.filter]
      by_cases hk : k == key
      · simp [hk, erase_ofList key rest]
      · simp [hk, erase_ofList key rest, PyDict.ofList]

theorem created_at_mem_toDictList (m : Manifest) :
    ("created_at", PyVal.pydt m.created_at) ∈ m.toDictList := by
  simp [Manifest.toDictList]

/-- The central serialization fact: json.dumps of a Manifest's dict (with
the signature popped) always fails, because the created_at entry is a
datetime and json has no encoder for it. -/
theorem prepare_always_errors (m : Manifest) :
    ∃ e, prepareManifestForSigning m = .error e := by
  have hdt : hasDtEntry (m.to_dict.erase "signature") = true := by
    rw [Manifest.to_dict, erase_ofList, hasDtEntry_ofList]
    apply List.any_eq_true.mpr
    refine ⟨("created_at", .pydt m.created_at), ?_, rfl⟩
    apply List.mem_filter.mpr
    exact ⟨created_at_mem_toDictList m, rfl⟩
  have h2 : hasDtEntry (sortEntries (sortDictVals (m.to_dict.erase "signature"))) = true := by
    rw [hasDtEntry_sortEntries, hasDtEntry_sortDictVals]; exact hdt
  have h3 := emitVal_pydict_not_ok _ h2
  unfold prepareManifestForSigning jsonDumpsCanonical
  have hs : sortVal (.pydict (m.to_dict.erase "signature"))
      = .pydict (sortEntries (sortDictVals (m.to_dict.erase "signature"))) := rfl
  rw [hs]
  cases hev : emitVal (.pydict (sortEntries (sortDictVals (m.to_dict.erase "signature")))) with
  | ok s => exact absurd hev (h3 s)
  | error e => exact ⟨e, rfl⟩

/-- The MISSING_HASH_ASSERTION error issue recorded by the assertion
stage. -/
def hashMissingIssue : ValidationIssue :=
  ⟨"error", "MISSING_HASH_ASSERTION",
   "Required c2pa.hash.data assertion not found", none⟩

/-- Whether some recorded issue has error severity. -/
def anyErrorIssue (issues : List ValidationIssue) : Bool :=
  issues.any (fun i => i.severity == "error")

/-- The trust-level cascade exactly as the claim words it: any error issue
present or signature not valid gives INVALID; else signature valid +
certificate trusted + chain complete gives ENTERPRISE; else signature valid
+ certificate trusted gives STANDARD; else signature valid gives BASIC;
otherwise INVALID.  (Claim-side definition, to be compared with the
source-side determineTrustLevel.) -/
def trustLevelClaim (errorIssuePresent sigValid certTrusted chainComplete : Bool) :
    ValidationLevel :=
  if errorIssuePresent || !sigValid then .invalid
  else if sigValid && certTrusted && chainComplete then .enterprise
  else if sigValid && certTrusted then .standard
  else if sigValid then .basic
  else .invalid

theorem determineTrustLevel_eq_claim (sv ct cc : Bool) (n : Nat) :
    determineTrustLevel sv ct cc n = trustLevelClaim (decide (0 < n)) sv ct cc := by
  cases sv <;> cases ct <;> cases cc <;> cases n <;>
    simp [determineTrustLevel, trustLevelClaim]

theorem anyErrorIssue_of_all (issues : List ValidationIssue)
    (h : ∀ i ∈ issues, i.severity = "error") :
    anyErrorIssue issues = decide (0 < issues.length) := by
  cases issues with
  | nil => rfl
  | cons i rest =>
      have : i.severity = "error" := h i (List.mem_cons_self i rest)
      simp [anyErrorIssue, this]

theorem validateStructure_issues_error (m : Manifest) :
    ∀ i ∈ (validateStructure m).2.1, i.severity = "error" := by
  intro i hi
  simp only [validateStructure] at hi
  simp only [List.mem_append] at hi
  rcases hi with (hi | hi) | hi <;> split at hi <;> simp_all

theorem validateAssertions_issues_shape (m : Manifest) (b : Bool)
    (avs : List AssertionValidation) (aIss aWarn : List ValidationIssue)
    (ha : validateAssertions m = .ok (b, avs, aIss, aWarn)) :
    aIss = [] ∨ aIss = [hashMissingIssue] := by
  unfold validateAssertions at ha
  split at ha
  · simp only [Except.ok.injEq, Prod.mk.injEq] at ha
    exact Or.inl ha.2.2.1.symm
  · cases hl : assertionsLoop m.assertions with
    | error e => rw [hl] at ha; simp [bind, Except.bind] at ha
    | ok trip =>
        obtain ⟨vs, hasActions, hasHash⟩ := trip
        rw [hl] at ha
        simp only [bind, Except.bind] at ha
        split at ha <;> simp only [Except.ok.injEq, Prod.mk.injEq] at ha
        · exact Or.inr ha.2.2.1.symm
        · exact Or.inl ha.2.2.1.symm

theorem validateSignatureStage_issues_error (m : Manifest) :
    ∀ i ∈ (validateSignatureStage m).2, i.severity = "error" := by
  intro i hi
  unfold validateSignatureStage at hi
  cases h : m.signature with
  | none => rw [h] at hi; simp at hi
  | some sg =>
      rw [h] at hi
      dsimp only at hi
      cases hv : verifyManifest (signerOfAlg sg.alg) m with
      | ok bv =>
          rw [hv] at hi
          cases bv <;> simp_all
      | error e =>
          rw [hv] at hi
          simp at hi
          subst hi
          rfl

theorem signatureStagePair_issues_error (trusted : List String) (m : Manifest) :
    ∀ i ∈ (signatureStagePair trusted m).2.2.1, i.severity = "error" := by
  intro i hi
  unfold signatureStagePair at hi
  cases h : m.signature with
  | none => rw [h] at hi; simp at hi; subst hi; rfl
  | some sg =>
      rw [h] at hi
      rcases hvs : validateSignatureStage m with ⟨sv, i1⟩
      rcases hct : validateCertificateTrust trusted m with ⟨ct, w1⟩
      rw [hvs, hct] at hi
      simp only at hi
      have := validateSignatureStage_issues_error m i
      rw [hvs] at this
      exact this hi

/-- When the assertion and compliance stages succeed, validate returns the
record assembled from the stage results (pure unfolding of validate). -/
theorem validateManifest_eq (trusted : List String) (m : Manifest)
    (strict : Bool) (now : String)
    (sOK : Bool) (sIss sWarn : List ValidationIssue)
    (hs : validateStructure m = (sOK, sIss, sWarn))
    (b : Bool) (avs : List AssertionValidation) (aIss aWarn : List ValidationIssue)
    (ha : validateAssertions m = .ok (b, avs, aIss, aWarn))
    (sv ct : Bool) (gIss gWarn : List ValidationIssue)
    (hg : signatureStagePair trusted m = (sv, ct, gIss, gWarn))
    (oc : List (String × PyVal))
    (hc : checkOrganizationalCompliance m = .ok oc) :
    validateManifest trusted m strict now = .ok
      { valid := (if strict then sOK && b && sv && ct && validateChainOfCustody m
                  else sOK && b && sv),
        trust_level := determineTrustLevel sv ct (validateChainOfCustody m)
          (sIss ++ aIss ++ gIss).length,
        signature_valid := sv, certificate_trusted := ct,
        chain_complete := validateChainOfCustody m,
        assertions_verified := avs,
        issues := sIss ++ aIss ++ gIss, warnings := sWarn ++ aWarn ++ gWarn,
        verified_at := now, manifest_id := m.instance_id,
        organizational_compliance := some oc } := by
  unfold validateManifest
  rw [hs, ha, hg, hc]
  simp [bind, Except.bind]

/-- A sample creation timestamp (isoformat text of a datetime value). -/
def dtA : String := "2025-01-01T00:00:00"

/-- A minimal manifest as the model constructs it: required fields set,
created_at a datetime. -/
def mC1 : Manifest :=
  { claim_generator := "Acme/1.0", format := "image/jpeg",
    instance_id := "xmp:iid:c1", created_at := dtA }

/-- A placeholder validation result used only as the default of
getOkValidationResult below. -/
def dummyValidationResult : ValidationResult :=
  { valid := false, trust_level := .invalid, signature_valid := false,
    certificate_trusted := false, chain_complete := false,
    assertions_verified := [], issues := [], warnings := [],
    verified_at := "", manifest_id := "" }

/-- Extract the result of a successful validation run (default placeholder
on error); used to state concrete witnesses without binders. -/
def getOkValidationResult : Except PyErr ValidationResult → ValidationResult
  | .ok r => r
  | .error _ => dummyValidationResult

/-- A placeholder policy evaluation result used only as the default of
getOkPolicyResult below. -/
def dummyPolicyResult : PolicyEvaluationResult :=
  { manifest_id := "", policy_name := "", passed := true,
    violations := [], evaluated_at := "" }

/-- Extract the result of a successful policy evaluation (default
placeholder on error); used to state concrete witnesses without binders. -/
def getOkPolicyResult : Except PyErr PolicyEvaluationResult → PolicyEvaluationResult
  | .ok r => r
  | .error _ => dummyPolicyResult

theorem determineTrustLevel_pos (sv ct cc : Bool) (n : Nat) (h : 0 < n) :
    determineTrustLevel sv ct cc n = .invalid := by
  cases n with
  | zero => exact absurd h (by simp)
  | succ k => cases sv <;> simp [determineTrustLevel]

theorem assertionsLoop_no_hash : ∀ (as : List Assertion),
    (∀ a ∈ as, a.label ≠ "c2pa.hash.data") →
    ∀ vs hA hH, assertionsLoop as = .ok (vs, hA, hH) → hH = false
  | [], _ => by
      intro vs hA hH h
      unfold assertionsLoop at h
      simp only [Except.ok.injEq, Prod.mk.injEq] at h
      exact h.2.2.symm
  | a :: rest, hno => by
      intro vs hA hH h
      unfold assertionsLoop at h
      cases hr : assertionsLoop rest with
      | error e => rw [hr] at h; simp [bind, Except.bind] at h
      | ok trip =>
          obtain ⟨vs2, hA2, hH2⟩ := trip
          have hH2f : hH2 = false :=
            assertionsLoop_no_hash rest
              (fun x hx => hno x (List.mem_cons_of_mem a hx)) vs2 hA2 hH2 hr
          rw [hr] at h
          simp only [bind, Except.bind] at h
          have hlab : (a.label == "c2pa.hash.data") = false := by
            simpa using hno a (List.mem_cons_self a rest)
          split at h
      
          · cases hva : validateActionsAssertion a with
            | error e => rw [hva] at h; simp [bind, Except.bind] at h
            | ok v =>
                rw [hva] at h
                simp only [bind, Except.bind, Except.ok.injEq, Prod.mk.injEq] at h
                rw [← h.2.2]
                exact hH2f
          · split at h
            · simp_all
            · simp only [Except.ok.injEq, Prod.mk.injEq] at h
              rw [← h.2.2]
              exact hH2f

theorem validateAssertions_nohash (m : Manifest)
    (hne : m.assertions ≠ [])
    (hnohash : ∀ a ∈ m.assertions, a.label ≠ "c2pa.hash.data")
    (b : Bool) (avs : List AssertionValidation) (aIss aWarn : List ValidationIssue)
    (ha : validateAssertions m = .ok (b, avs, aIss, aWarn)) :
    b = false ∧ aIss = [hashMissingIssue] := by
  have hie : m.assertions.isEmpty = false := by
    cases hl : m.assertions with
    | nil => exact absurd hl hne
    | cons x xs => rfl
  unfold validateAssertions at ha
  rw [hie] at ha
  simp only [Bool.false_eq_true, if_false] at ha
  cases hl : assertionsLoop m.assertions with
  | error e => rw [hl] at ha; simp [bind, Except.bind] at ha
  | ok trip =>
      obtain ⟨vs, hA, hH⟩ := trip
      have hHf : hH = false := assertionsLoop_no_hash m.assertions hnohash vs hA hH hl
      rw [hl] at ha
      simp only [bind, Except.bind] at ha
      rw [hHf] at ha
      simp only [Bool.not_false, if_true] at ha
      simp only [Except.ok.injEq, Prod.mk.injEq] at ha
      exact ⟨ha.1.symm, ha.2.2.1.symm⟩

/-- C3: on every validation run the derived trust level follows the claimed
total order of precedence: any error issue present or an invalid signature
gives INVALID; else signature valid + certificate trusted + chain complete
gives ENTERPRISE; else signature valid + certificate trusted gives STANDARD;
else signature valid gives BASIC; otherwise INVALID. -/
theorem trust_level_follows_claimed_precedence (trusted : List String)
    (m : Manifest) (strict : Bool) (now : String) (r : ValidationResult)
    (h : validateManifest trusted m strict now = .ok r) :
    r.trust_level = trustLevelClaim (anyErrorIssue r.issues)
      r.signature_valid r.certificate_trusted r.chain_complete := by
  rcases hs : validateStructure m with ⟨sOK, sIss, sWarn⟩
  cases ha : validateAssertions m with
  | error e =>
      unfold validateManifest at h
      rw [ha] at h
      simp [bind, Except.bind] at h
  | ok quad =>
      obtain ⟨b, avs, aIss, aWarn⟩ := quad
      rcases hg : signatureStagePair trusted m with ⟨sv, ct, gIss, gWarn⟩
      cases hc : checkOrganizationalCompliance m with
      | error e =>
          unfold validateManifest at h
          rw [ha] at h
          simp only [bind, Except.bind] at h
          rw [hc] at h
          simp at h
      | ok oc =>
          have heq := validateManifest_eq trusted m strict now sOK sIss sWarn hs
            b avs aIss aWarn ha sv ct gIss gWarn hg oc hc
          rw [heq] at h
          simp only [Except.ok.injEq] at h
          subst h
          have h1 := validateStructure_issues_error m
          rw [hs] at h1
          have h3 := signatureStagePair_issues_error trusted m
          rw [hg] at h3
          have hall : ∀ i ∈ sIss ++ aIss ++ gIss, i.severity = "error" := by
            intro i hi
            rcases List.mem_append.mp hi with hi2 | hig
            · rcases List.mem_append.mp hi2 with his | hia
              · exact h1 i his
              · rcases validateAssertions_issues_shape m b avs aIss aWarn ha with
                  hsh | hsh
                · rw [hsh] at hia; simp at hia
                · rw [hsh] at hia; simp at hia; subst hia; rfl
            · exact h3 i hig
          show determineTrustLevel sv ct (validateChainOfCustody m)
              (sIss ++ aIss ++ gIss).length = _
          rw [anyErrorIssue_of_all _ hall, determineTrustLevel_eq_claim]

/-- A manifest with actions and hash assertions and an ML-DSA signature,
used as the concrete input of the C3 witness. -/
def mW3 : Manifest :=
  { claim_generator := "Acme/1.0", format := "image/jpeg",
    instance_id := "xmp:iid:w3",
    assertions :=
      [⟨"c2pa.actions",
        .pydict (.cons "actions"
          (.pylist (.cons (.pydict (.cons "action" (.pystr "c2pa.created") .nil)) .nil)) .nil),
        some "assertion:a1"⟩,
       ⟨"c2pa.hash.data",
        .pydict (PyDict.ofList
          [("exclusions", .pylist .nil), ("name", .pystr "sha256"),
           ("alg", .pystr "sha256"), ("hash", .pystr "ab12")]),
        some "assertion:a2"⟩],
    signature := some ⟨.mlDsa65, ["certX"], dtA, none, some [1, 2, 3]⟩,
    created_at := dtA }

/-- Witness for C3 at a concrete signed manifest. -/
theorem trust_level_follows_claimed_precedence_witness :
    validateManifest ["certX"] mW3 false dtA =
      .ok (getOkValidationResult (validateManifest ["certX"] mW3 false dtA)) ∧
    (getOkValidationResult (validateManifest ["certX"] mW3 false dtA)).trust_level =
      trustLevelClaim
        (anyErrorIssue (getOkValidationResult (validateManifest ["certX"] mW3 false dtA)).issues)
        (getOkValidationResult (validateManifest ["certX"] mW3 false dtA)).signature_valid
        (getOkValidationResult (validateManifest ["certX"] mW3 false dtA)).certificate_trusted
        (getOkValidationResult (validateManifest ["certX"] mW3 false dtA)).chain_complete :=
  ⟨rfl, trust_level_follows_claimed_precedence ["certX"] mW3 false dtA
    (getOkValidationResult (validateManifest ["certX"] mW3 false dtA)) rfl⟩

/-- A manifest with a signature but an empty assertion list: the C4
counterexample input. -/
def mC4empty : Manifest :=
  { claim_generator := "Acme/1.0", format := "image/jpeg",
    instance_id := "xmp:iid:c4e",
    signature := some ⟨.mlDsa65, [], dtA, none, some [9]⟩,
    created_at := dtA }

/-- C4 counterexample: a manifest whose assertion list is empty does NOT
make the assertion-check stage record an error and fail — the stage passes
(True) and records only the NO_ASSERTIONS warning, contrary to the claim's
"including a Manifest whose assertion list is empty". -/
theorem empty_assertion_list_passes_assertion_check :
    mC4empty.assertions = [] ∧
    validateAssertions mC4empty =
      .ok (true, [], [],
        [⟨"warning", "NO_ASSERTIONS", "Manifest has no assertions", none⟩]) :=
  ⟨rfl, rfl⟩

/-- C4 (amended): for every manifest whose assertion list is NONEMPTY and
contains no c2pa.hash.data assertion, the assertion stage records the
MISSING_HASH_ASSERTION error, overall validity is false, and the trust
level is INVALID regardless of signature validity (an empty assertion list
instead passes the stage with only a warning). -/
theorem missing_hash_assertion_forces_invalid (trusted : List String)
    (m : Manifest) (strict : Bool) (now : String) (r : ValidationResult)
    (hne : m.assertions ≠ [])
    (hnohash : ∀ a ∈ m.assertions, a.label ≠ "c2pa.hash.data")
    (h : validateManifest trusted m strict now = .ok r) :
    hashMissingIssue ∈ r.issues ∧ r.valid = false ∧
      r.trust_level = ValidationLevel.invalid := by
  rcases hs : validateStructure m with ⟨sOK, sIss, sWarn⟩
  cases ha : validateAssertions m with
  | error e =>
      unfold validateManifest at h
      rw [ha] at h
      simp [bind, Except.bind] at h
  | ok quad =>
      obtain ⟨b, avs, aIss, aWarn⟩ := quad
      obtain ⟨hb, hai⟩ := validateAssertions_nohash m hne hnohash b avs aIss aWarn ha
      subst hb; subst hai
      rcases hg : signatureStagePair trusted m with ⟨sv, ct, gIss, gWarn⟩
      cases hc : checkOrganizationalCompliance m with
      | error e =>
          unfold validateManifest at h
          rw [ha] at h
          simp only [bind, Except.bind] at h
          rw [hc] at h
          simp at h
      | ok oc =>
          have heq := validateManifest_eq trusted m strict now sOK sIss sWarn hs
            false avs [hashMissingIssue] aWarn ha sv ct gIss gWarn hg oc hc
          rw [heq] at h
          simp only [Except.ok.injEq] at h
          subst h
          refine ⟨by simp, by simp, ?_⟩
          show determineTrustLevel sv ct (validateChainOfCustody m)
            (sIss ++ [hashMissingIssue] ++ gIss).length = _
          apply determineTrustLevel_pos
          simp

/-- A manifest with one non-hash assertion: the C4 witness input. -/
def mW4 : Manifest :=
  { claim_generator := "Acme/1.0", format := "image/jpeg",
    instance_id := "xmp:iid:w4",
    assertions := [⟨"c2pa.training-mining",
      .pydict (.cons "use" (.pydict (.cons "allowed" (.pybool false) .nil)) .nil),
      some "assertion:w4"⟩],
    signature := some ⟨.mlDsa65, ["certY"], dtA, none, some [7, 7]⟩,
    created_at := dtA }

/-- Witness for the amended C4 at a concrete manifest without a
content-hash assertion. -/
theorem missing_hash_assertion_forces_invalid_witness :
    validateManifest ["certY"] mW4 true dtA =
      .ok (getOkValidationResult (validateManifest ["certY"] mW4 true dtA)) ∧
    (hashMissingIssue ∈ (getOkValidationResult (validateManifest ["certY"] mW4 true dtA)).issues ∧
     (getOkValidationResult (validateManifest ["certY"] mW4 true dtA)).valid = false ∧
     (getOkValidationResult (validateManifest ["certY"] mW4 true dtA)).trust_level =
       ValidationLevel.invalid) :=
  ⟨rfl, missing_hash_assertion_forces_invalid ["certY"] mW4 true dtA
    (getOkValidationResult (validateManifest ["certY"] mW4 true dtA))
    (by simp [mW4]) (by simp [mW4]) rfl⟩

/-- C8: for every manifest and every registered policy, a successful
evaluation passes exactly when no accumulated violation has error severity;
warning- and info-severity violations never fail a policy. -/
theorem policy_passed_iff_no_error_violation (e : PolicyEngine) (m : Manifest)
    (policyName now : String) (r : PolicyEvaluationResult)
    (h : evaluatePolicy e m policyName now = .ok r) :
    (r.passed = true ↔ ∀ v ∈ r.violations, v.severity ≠ PolicyRuleSeverity.error) := by
  unfold evaluatePolicy at h
  cases hp : e.policies.lookup policyName with
  | none => rw [hp] at h; simp at h
  | some policy =>
      rw [hp] at h
      dsimp only at h
      cases hv : rulesLoop e m policy.rules with
      | error err => rw [hv] at h; simp [bind, Except.bind] at h
      | ok vios =>
          rw [hv] at h
          simp only [bind, Except.bind, Except.ok.injEq] at h
          subst h
          simp only [Bool.not_eq_true', List.any_eq_false, beq_iff_eq]

/-- A bare manifest with no assertions: the C8 witness input. -/
def mW8 : Manifest :=
  { claim_generator := "Acme/1.0", format := "application/pdf",
    instance_id := "xmp:iid:w8", created_at := dtA }

/-- Witness for C8: evaluating the built-in legal_documents policy on a
bare manifest yields error violations, so the iff forces passed = false. -/
theorem policy_passed_iff_no_error_violation_witness :
    ¬((getOkPolicyResult (evaluatePolicy defaultPolicyEngine mW8 "legal_documents" dtA)).passed
      = true) :=
  fun hp =>
    absurd
      ((policy_passed_iff_no_error_violation defaultPolicyEngine mW8 "legal_documents" dtA
        (getOkPolicyResult (evaluatePolicy defaultPolicyEngine mW8 "legal_documents" dtA))
        rfl).mp hp)
      (by decide)

/-- C9: a custom-predicate rule whose function name is unregistered, or
whose registered function raises, yields exactly one violation whose
severity is ERROR regardless of the rule's declared severity, and the rule
evaluation itself returns normally (the exception never escapes the
evaluator). -/
theorem custom_function_failures_escalate_to_error (e : PolicyEngine)
    (m : Manifest) (rule : PolicyRule) (fname : String)
    (hty : rule.rule_type = PolicyRuleType.customFunction)
    (hf : truthyOptStr rule.custom_function = some fname)
    (hfail : e.custom_functions.lookup fname = none ∨
      ∃ f err, e.custom_functions.lookup fname = some f ∧ f m = .error err) :
    ∃ v, evaluateRule e m rule = .ok [v] ∧ v.severity = PolicyRuleSeverity.error := by
  rw [evaluateRule, hty]
  simp only []
  unfold checkCustomFunction
  rw [hf]
  dsimp only
  rcases hfail with hnone | ⟨f, err, hsome, herr⟩
  · rw [hnone]
    exact ⟨_, rfl, rfl⟩
  · rw [hsome]
    simp only []
    rw [herr]
    exact ⟨_, rfl, rfl⟩

/-- A custom-function rule declared at INFO severity naming an unregistered
function: the C9 witness input. -/
def ruleW9 : PolicyRule :=
  { name := "custom_check", description := "calls an unregistered predicate",
    rule_type := .customFunction, severity := .info,
    custom_function := some "nope" }

/-- The severity of the first violation of a successful rule evaluation
(INFO placeholder otherwise); lets the C9 witness state a closed fact. -/
def firstViolationSeverity (x : Except PyErr (List PolicyViolation)) : PolicyRuleSeverity :=
  match x with
  | .ok (v :: _) => v.severity
  | _ => .info

/-- Witness for C9: the INFO-severity rule with an unregistered function
evaluates to a single ERROR-severity violation. -/
theorem custom_function_failures_escalate_to_error_witness :
    firstViolationSeverity (evaluateRule defaultPolicyEngine mW8 ruleW9)
      = PolicyRuleSeverity.error := by
  obtain ⟨v, hv, hsev⟩ := custom_function_failures_escalate_to_error
    defaultPolicyEngine mW8 ruleW9 "nope" rfl rfl (Or.inl rfl)
  rw [hv]
  exact hsev

/-- C1 (code bug): the canonicalizer never produces canonical bytes — on a
minimal manifest Signer._prepare_manifest_for_signing raises TypeError,
because to_dict leaves created_at a datetime object and json.dumps is
called without a default encoder (to_json elsewhere passes default=str). -/
theorem canonicalization_raises_typeerror :
    prepareManifestForSigning mC1 =
      .error (.typeError "Object of type datetime is not JSON serializable") := rfl

/-- The placeholder ML-DSA signature over empty data under the demo key: a
valid post-quantum half. -/
def validPqcHalf : List Nat :=
  asciiBytes "ML-DSA-SIGNATURE:" ++ sha3_256 ([] ++ demoKey)

/-- A hybrid signature in the documented layout
[classical_length:4][classical][pqc] whose classical half is garbage bytes
and whose post-quantum half is valid. -/
def corruptedClassicalHybridSig : List Nat :=
  natToBytesBE4 4 ++ [153, 153, 153, 153] ++ validPqcHalf

/-- C2 (code bug): the post-quantum half of corruptedClassicalHybridSig is
valid on its own, and hybrid verification ACCEPTS the whole signature even
though its classical half is corrupted — the classical placeholder
_verify_rsa_pss returns True unconditionally, so the claimed AND semantics
does not reject a corrupted classical half. -/
theorem hybrid_verify_accepts_corrupted_classical_half :
    verifyMlDsa (signerOfAlg .hybridRsaMlDsa) [] validPqcHalf = .ok true ∧
    verifyHybrid (signerOfAlg .hybridRsaMlDsa) [] corruptedClassicalHybridSig
      = .ok true :=
  ⟨rfl, rfl⟩

/-- A ps256-signed manifest carrying a content-hash assertion. -/
def mC5 : Manifest :=
  { claim_generator := "Acme/1.0", format := "image/jpeg",
    instance_id := "xmp:iid:c5",
    assertions := [⟨"c2pa.hash.data",
      .pydict (PyDict.ofList
        [("exclusions", .pylist .nil), ("name", .pystr "sha256"),
         ("alg", .pystr "sha256"), ("hash", .pystr "aa")]),
      some "assertion:c5"⟩],
    signature := some ⟨.rsaPssSha256, [], dtA, none, some [1, 2, 3]⟩,
    created_at := dtA }

/-- mC5 with its assertion data mutated after signing (hash aa -> bb); the
signature field is unchanged. -/
def mC5mut : Manifest :=
  { mC5 with assertions := [⟨"c2pa.hash.data",
      .pydict (PyDict.ofList
        [("exclusions", .pylist .nil), ("name", .pystr "sha256"),
         ("alg", .pystr "sha256"), ("hash", .pystr "bb")]),
      some "assertion:c5"⟩] }

/-- C5 (code bug): verifying the mutated manifest does not return false —
it raises TypeError during canonicalization; and independently the RSA-PSS
verification placeholder answers True for arbitrary data and signature
bytes, so classical tags could never detect the mutation. -/
theorem verify_after_mutation_raises_not_false :
    mC5mut.signature = mC5.signature ∧
    verifyManifest (signerOfAlg .rsaPssSha256) mC5mut =
      .error (.typeError "Object of type datetime is not JSON serializable") ∧
    verifySignatureBytes (signerOfAlg .rsaPssSha256) [0] [1] = .ok true :=
  ⟨rfl, rfl, rfl⟩

/-- An unsigned manifest. -/
def mC6unsigned : Manifest :=
  { claim_generator := "Acme/1.0", format := "text/plain",
    instance_id := "xmp:iid:c6a", created_at := dtA }

/-- A signed manifest. -/
def mC6signed : Manifest :=
  { claim_generator := "Acme/1.0", format := "text/plain",
    instance_id := "xmp:iid:c6b",
    signature := some ⟨.mlDsa65, [], dtA, none, some [5]⟩,
    created_at := dtA }

/-- C6 (code bug): Signer.verify on a manifest without a signature returns
false, but on a signed manifest it RAISES (TypeError from
_prepare_manifest_for_signing, which runs outside the try block) instead of
resolving to false. -/
theorem verify_unsigned_false_but_signed_raises :
    verifyManifest (signerOfAlg .mlDsa65) mC6unsigned = .ok false ∧
    verifyManifest (signerOfAlg .mlDsa65) mC6signed =
      .error (.typeError "Object of type datetime is not JSON serializable") :=
  ⟨rfl, rfl⟩

/-- An ML-DSA signer with fresh raw key material. -/
def signerC7 : SignerState := { algorithm := .mlDsa65, key := .rawKey [1, 2, 3, 4] }

/-- The manifest for the C7 round-trip attempt. -/
def mC7 : Manifest :=
  { claim_generator := "Acme/1.0", format := "image/png",
    instance_id := "xmp:iid:c7", created_at := dtA }

/-- C7 (code bug): Signer.sign raises TypeError before any signature is
computed, so verify(sign(claim)) can never evaluate to true for any
supported tag. -/
theorem sign_raises_so_roundtrip_never_true :
    signManifest signerC7 dtA mC7 =
      .error (.typeError "Object of type datetime is not JSON serializable") := rfl

/-- The manifest for the C10 counterexample. -/
def mC10 : Manifest :=
  { claim_generator := "Beta/2.0", format := "video/mp4",
    instance_id := "xmp:iid:c10", title := some "clip", created_at := dtA }

/-- C10 counterexample: Signer.sign does not return the manifest with its
signature field set — on this concrete input it raises TypeError during
canonical serialization, before any mutation happens. -/
theorem sign_never_returns_signed_manifest :
    signManifest (signerOfAlg .slhDsaSha2128s) dtA mC10 =
      .error (.typeError "Object of type datetime is not JSON serializable") := rfl

/-- C10 (amended): Signer.sign raises on every Manifest under every signer
configuration — canonical serialization fails on the datetime created_at —
so no field, the signature included, is ever set by a completed call. -/
theorem sign_always_raises (s : SignerState) (now : String) (m : Manifest) :
    ∃ e, signManifest s now m = .error e := by
  obtain ⟨e, he⟩ := prepare_always_errors m
  refine ⟨e, ?_⟩
  unfold signManifest
  rw [he]
  rfl

end OMT
